import Mathlib

/-!
Verification development for the assessment backend: a shallow embedding of the
dimension scoring engine, the reliability/quality-check engine and the safe
share/compare payload generator, together with theorems settling the spec
claims about them.

Modelling conventions:
* JavaScript numbers are modelled as exact rationals (`ℚ`).  Where the source
  can produce a non-finite number (`NaN`, `Infinity`) the embedding either
  follows the source's guard or makes the JS semantics explicit with a case
  split (documented at each spot); a check score that is not a finite number is
  modelled as `none : Option ℚ`.
* `Math.exp` and `Math.sqrt` are transcendental primitives; they are threaded
  through as explicit function parameters `mexp`/`msqrt : ℚ → ℚ`, and theorems
  assume only the properties of those primitives that they need (for example
  `mexp 0 = 1`, or that `msqrt` is nonnegative).
* `null`/absent answer values are `Option ℚ` (`none` = unanswered).
* Embedded timestamps (`computedAt`, `checkedAt`, `generatedAt`) are external
  clock readings, explicitly excluded from correctness by the design, and are
  omitted from the records.
-/

/-- JavaScript `Math.round`: round half toward positive infinity, that is the
floor of `q + 1/2` (stated via the executable `Rat.floor`). -/
def jsRound (q : ℚ) : ℤ := (q + 1/2).floor

/-- Rounding to two decimal places, `Math.round(x * 100) / 100` in the source. -/
def round2 (q : ℚ) : ℚ := ((jsRound (q * 100) : ℚ)) / 100

/-- UTF-8 bytes of one character (what `Buffer.from(string)` produces per char). -/
def utf8Bytes (c : Char) : List ℕ :=
  let n := c.toNat
  if n < 128 then [n]
  else if n < 2048 then [192 + n / 64, 128 + n % 64]
  else if n < 65536 then [224 + n / 4096, 128 + (n / 64) % 64, 128 + n % 64]
  else [240 + n / 262144, 128 + (n / 4096) % 64, 128 + (n / 64) % 64, 128 + n % 64]

/-- UTF-8 byte sequence of a string, as `Buffer.from(s)` yields. -/
def strBytes (s : String) : List ℕ :=
  s.toList.foldr (fun c acc => utf8Bytes c ++ acc) []

/-- The standard base64 alphabet. -/
def base64Alphabet : List Char :=
  "ABCDEFGHIJKLMNOPQRSTUVWXYZabcdefghijklmnopqrstuvwxyz0123456789+/".toList

/-- Character for a 6-bit group. -/
def b64char (n : ℕ) : Char := base64Alphabet.getD n '='

/-- Standard base64 encoding (with padding) of a byte list, as
`buffer.toString(\x27base64\x27)` produces. -/
def base64Encode : List ℕ → List Char
  | [] => []
  | [b1] => [b64char (b1 / 4), b64char (b1 % 4 * 16), '=', '=']
  | [b1, b2] => [b64char (b1 / 4), b64char (b1 % 4 * 16 + b2 / 16), b64char (b2 % 16 * 4), '=']
  | b1 :: b2 :: b3 :: rest =>
      [b64char (b1 / 4), b64char (b1 % 4 * 16 + b2 / 16),
       b64char (b2 % 16 * 4 + b3 / 64), b64char (b3 % 64)] ++ base64Encode rest

/-- Base64 of the UTF-8 bytes of a string: `Buffer.from(s).toString(\x27base64\x27)`. -/
def base64OfString (s : String) : String := String.mk (base64Encode (strBytes s))

/-- One item (question) of an assessment definition. -/
structure Item where
  itemId : String
  dimensionId : String
  isReversed : Bool
  weight : ℚ
  minValue : ℚ
  maxValue : ℚ
deriving DecidableEq

/-- One dimension (trait axis) of an assessment definition. -/
structure Dimension where
  dimensionId : String
  name : String
  description : String
deriving DecidableEq

/-- An assessment definition: dimensions plus items. -/
structure Assessment where
  assessmentId : String
  dimensions : List Dimension
  items : List Item
deriving DecidableEq

/-- An answer to one item; `value = none` models a `null` (unanswered) value. -/
structure Answer where
  itemId : String
  value : Option ℚ
deriving DecidableEq

/-- Score of one dimension as computed by the scorer. -/
structure DimensionScore where
  dimensionId : String
  name : String
  rawScore : ℚ
  normalizedScore : ℚ
  percentile : ℚ
deriving DecidableEq

/-- A full scoring result (the `computedAt` timestamp is omitted, see header). -/
structure ScoreSet where
  dimensions : List DimensionScore
  overallScore : ℚ
deriving DecidableEq

/-- Result of one reliability check.  `score = none` models a score that is not
a finite JS number (`NaN` or an infinity). -/
structure ReliabilityCheck where
  checkName : String
  passed : Bool
  score : Option ℚ
  message : String
deriving DecidableEq

/-- Aggregated reliability result (the `checkedAt` timestamp is omitted). -/
structure ReliabilityResult where
  isUsable : Bool
  overallRating : String
  checks : List ReliabilityCheck
  flags : List String
deriving DecidableEq

/-- Submission metadata; only `timeSpent` is consulted by the core. -/
structure Metadata where
  timeSpent : Option ℚ
deriving DecidableEq

/-- A stored assessment response with its precomputed scores and reliability. -/
structure AssessmentResponse where
  responseId : String
  userId : String
  assessmentId : String
  answers : List Answer
  scores : ScoreSet
  reliability : ReliabilityResult
  metadata : Metadata
deriving DecidableEq

/-! ## Normalization math (scoring service functions 3 to 6) -/

/-- `reverseScore(value, minValue, maxValue) = (maxValue + minValue) - value`. -/
def reverseScore (value minValue maxValue : ℚ) : ℚ := (maxValue + minValue) - value

/-- Min-max normalization to 0..100 with the midpoint-50 degenerate fallback. -/
def normalizeScore (rawScore minPossible maxPossible : ℚ) : ℚ :=
  if maxPossible = minPossible then 50
  else ((rawScore - minPossible) / (maxPossible - minPossible)) * 100

/-- The `prob` value of the source's `normalCDF`: the Abramowitz-Stegun style
rational-polynomial term.  `mexp` models `Math.exp`. -/
def cdfProb (mexp : ℚ → ℚ) (z : ℚ) : ℚ :=
  (0.3989423 * mexp (-z * z / 2)) * (1 / (1 + 0.2316419 * |z|)) *
    (0.3193815 + (1 / (1 + 0.2316419 * |z|)) *
      (-0.3565638 + (1 / (1 + 0.2316419 * |z|)) *
        (1.781478 + (1 / (1 + 0.2316419 * |z|)) *
          (-1.821256 + (1 / (1 + 0.2316419 * |z|)) * 1.330274))))

/-- `normalCDF(z)`: returns `1 - prob` for `z > 0`, else `prob`. -/
def normalCDF (mexp : ℚ → ℚ) (z : ℚ) : ℚ :=
  if z > 0 then 1 - cdfProb mexp z else cdfProb mexp z

/-- `calculatePercentile(normalizedScore)`: z-score against mean 50, sd 15,
then `normalCDF(z) * 100`. -/
def calculatePercentile (mexp : ℚ → ℚ) (normalizedScore : ℚ) : ℚ :=
  normalCDF mexp ((normalizedScore - 50) / 15) * 100

/-! ## Dimension scorer (scoring service functions 1, 2, 7, 8) -/

/-- Organizes answers by the dimension that owns their item; mirrors the
source's `groupByDimension` object (an absent key reads as the empty list, and
an item with a falsy — empty — `dimensionId` is skipped). -/
def groupByDimension (assessment : Assessment) (answers : List Answer) : String → List Answer :=
  fun dimensionId =>
    answers.filter (fun a =>
      match assessment.items.find? (fun i => i.itemId == a.itemId) with
      | some i => !(i.dimensionId == "") && (i.dimensionId == dimensionId)
      | none => false)

/-- `calculateDimensionScore(dimension, answers, allItems)`. -/
def calculateDimensionScore (mexp : ℚ → ℚ) (dimension : Dimension) (answers : List Answer)
    (allItems : List Item) : DimensionScore :=
  let items := allItems.filter (fun it => it.dimensionId == dimension.dimensionId)
  if items.length = 0 then
    { dimensionId := dimension.dimensionId, name := dimension.name,
      rawScore := 0, normalizedScore := 0, percentile := 0 }
  else
    let contributions := items.filterMap (fun it =>
      ((answers.find? (fun a => a.itemId == it.itemId)).bind (fun a => a.value)).map
        (fun v => (if it.isReversed then reverseScore v it.minValue it.maxValue else v) * it.weight))
    if contributions.length = 0 then
      { dimensionId := dimension.dimensionId, name := dimension.name,
        rawScore := 0, normalizedScore := 0, percentile := 0 }
    else
      let minPossible := (items.map (fun it => it.minValue * it.weight)).sum
      let maxPossible := (items.map (fun it => it.maxValue * it.weight)).sum
      let normalizedScore := normalizeScore contributions.sum minPossible maxPossible
      { dimensionId := dimension.dimensionId, name := dimension.name,
        rawScore := round2 contributions.sum,
        normalizedScore := round2 normalizedScore,
        percentile := (jsRound (calculatePercentile mexp normalizedScore) : ℚ) }

/-- `calculateOverallScore`: mean of the normalized scores, 0 for no dimensions. -/
def calculateOverallScore (dimensionScores : List DimensionScore) : ℚ :=
  if dimensionScores.length = 0 then 0
  else round2 (((dimensionScores.map (fun d => d.normalizedScore)).sum) / (dimensionScores.length : ℚ))

/-- `scoreAssessment(assessment, answers)`. -/
def scoreAssessment (mexp : ℚ → ℚ) (assessment : Assessment) (answers : List Answer) : ScoreSet :=
  let grouped := groupByDimension assessment answers
  let dimensionScores := assessment.dimensions.map
    (fun d => calculateDimensionScore mexp d (grouped d.dimensionId) assessment.items)
  { dimensions := dimensionScores, overallScore := calculateOverallScore dimensionScores }

/-! ## Reliability engine -/

/-- Standardized check result; the score is rounded to two decimals (a
non-finite score stays non-finite under JS rounding, hence `Option.map`). -/
def createCheck (checkName : String) (passed : Bool) (score : Option ℚ) (message : String) :
    ReliabilityCheck :=
  { checkName := checkName, passed := passed, score := score.map round2, message := message }

/-- Occurrence counts of each distinct non-null answer value (the values of the
source's `valueCounts` object). -/
def straightlineCounts (answers : List Answer) : List ℚ :=
  (answers.filterMap (fun a => a.value)).dedup.map
    (fun v => ((answers.filterMap (fun a => a.value)).count v : ℚ))

/-- Straightlining check.  The empty-count case mirrors JS exactly: with no
non-null values `Math.max(...[])` is `-Infinity`, the straightline share is
`-Infinity`, which satisfies `<= 80`, so the check passes with score 100. -/
def checkStraightlining (answers : List Answer) : ReliabilityCheck :=
  if answers.length = 0 then
    createCheck "straightlining" false (some 0) "No answers provided"
  else
    match straightlineCounts answers with
    | [] => createCheck "straightlining" true (some 100) "Good response variation"
    | c :: cs =>
      if (cs.foldl max c / (answers.length : ℚ)) * 100 ≤ 80 then
        createCheck "straightlining" true (some 100) "Good response variation"
      else
        createCheck "straightlining" false
          (some (max 0 (100 - (cs.foldl max c / (answers.length : ℚ)) * 100)))
          (toString (jsRound ((cs.foldl max c / (answers.length : ℚ)) * 100)) ++
            "% answers are identical - possible straightlining")

/-- Non-null answer values, in order. -/
def variabilityValues (answers : List Answer) : List ℚ :=
  answers.filterMap (fun a => a.value)

/-- Arithmetic mean of a list of values. -/
def meanOf (values : List ℚ) : ℚ := values.sum / (values.length : ℚ)

/-- Population variance of a list of values. -/
def varianceOf (values : List ℚ) : ℚ :=
  ((values.map (fun v => (v - meanOf values) ^ 2)).sum) / (values.length : ℚ)

/-- Scale range of `items[0] || { minValue: 1, maxValue: 5 }`. -/
def variabilityScaleRange (items : List Item) : ℚ :=
  match items with
  | [] => 5 - 1
  | it :: _ => it.maxValue - it.minValue

/-- Variability check.  `msqrt` models `Math.sqrt`.  When the sample item's
scale range is 0 the JS division `stdDev / 0` gives `Infinity` for a positive
standard deviation (so `>= 0.15` holds and `Math.min(100, Infinity) = 100`),
and `NaN` (or `-Infinity` for a negative `msqrt` result) otherwise, which fails
the `>=` test and leaves a non-finite score. -/
def checkVariability (msqrt : ℚ → ℚ) (answers : List Answer) (items : List Item) :
    ReliabilityCheck :=
  if (variabilityValues answers).length < 3 then
    createCheck "variability" false (some 0) "Not enough answers"
  else if variabilityScaleRange items = 0 then
    (if 0 < msqrt (varianceOf (variabilityValues answers)) then
      createCheck "variability" true (some 100) "Adequate response variability"
    else
      createCheck "variability" false none "Low response variability - answers too similar")
  else
    (if msqrt (varianceOf (variabilityValues answers)) / variabilityScaleRange items ≥ 0.15 then
      createCheck "variability" true
        (some (min 100 (msqrt (varianceOf (variabilityValues answers)) / variabilityScaleRange items * 400)))
        "Adequate response variability"
    else
      createCheck "variability" false
        (some (min 100 (msqrt (varianceOf (variabilityValues answers)) / variabilityScaleRange items * 400)))
        "Low response variability - answers too similar")

/-- Non-null answers paired with their item's bounds; the source's `itemMap` is
a JS object, so for duplicate item ids the last item wins, hence the
`reverse.find?`.  An answer whose item id is absent from the map is skipped. -/
def extremePairs (answers : List Answer) (items : List Item) : List (ℚ × Item) :=
  answers.filterMap (fun a =>
    a.value.bind (fun v =>
      ((items.reverse).find? (fun it => it.itemId == a.itemId)).map (fun it => (v, it))))

/-- Percentage of counted answers that hit their item's min or max; the source
guards the division with `totalCount > 0`. -/
def extremePercentOf (answers : List Answer) (items : List Item) : ℚ :=
  if 0 < (extremePairs answers items).length then
    (((extremePairs answers items).filter
        (fun p => p.1 == p.2.minValue || p.1 == p.2.maxValue)).length : ℚ)
      / ((extremePairs answers items).length : ℚ) * 100
  else 0

/-- Extreme-responding check. -/
def checkExtremeResponding (answers : List Answer) (items : List Item) : ReliabilityCheck :=
  if answers.length = 0 then
    createCheck "extreme_responding" false (some 0) "No answers"
  else if extremePercentOf answers items ≤ 70 then
    createCheck "extreme_responding" true (some 100) "Appropriate use of scale"
  else
    createCheck "extreme_responding" false (some (max 0 (100 - extremePercentOf answers items)))
      (toString (jsRound (extremePercentOf answers items)) ++ "% extreme values - possible bias")

/-- Completion percentage, `(answeredItems / totalItems) * 100`. -/
def completionPercentOf (answers : List Answer) (items : List Item) : ℚ :=
  ((answers.filter (fun a => a.value.isSome)).length : ℚ) / (items.length : ℚ) * 100

/-- Completion-rate check.  The source has no guard on `totalItems`: with zero
items JS computes `0/0 = NaN` (which fails `NaN >= 80` and leaves a `NaN`
score, printed as "NaN"), or `n/0 = Infinity` for `n > 0` answered entries
(which passes `Infinity >= 80` with an `Infinity` score). -/
def checkCompletionRate (answers : List Answer) (items : List Item) : ReliabilityCheck :=
  if items.length = 0 then
    (if (answers.filter (fun a => a.value.isSome)).length = 0 then
      createCheck "completion_rate" false none "Only NaN% completed - too many skipped"
    else
      createCheck "completion_rate" true none "Infinity% completion rate")
  else if completionPercentOf answers items ≥ 80 then
    createCheck "completion_rate" true (some (completionPercentOf answers items))
      (toString (jsRound (completionPercentOf answers items)) ++ "% completion rate")
  else
    createCheck "completion_rate" false (some (completionPercentOf answers items))
      ("Only " ++ toString (jsRound (completionPercentOf answers items)) ++
        "% completed - too many skipped")

/-- Response-time check.  With `itemCount = 0` the JS average `timeSpent / 0`
is `Infinity` for positive time (passes, `Math.min(100, Infinity) = 100`),
`-Infinity` for negative time and `NaN` for zero time (both fail with a
non-finite score). -/
def checkResponseTime (timeSpent : ℚ) (itemCount : ℕ) : ReliabilityCheck :=
  if itemCount = 0 then
    (if 0 < timeSpent then
      createCheck "response_time" true (some 100) "Average Infinitys per item - adequate time"
    else if timeSpent < 0 then
      createCheck "response_time" false none "Only -Infinitys per item - possible rushing"
    else
      createCheck "response_time" false none "Only NaNs per item - possible rushing")
  else if timeSpent / (itemCount : ℚ) ≥ 2 then
    createCheck "response_time" true
      (some (min 100 ((timeSpent / (itemCount : ℚ)) / 2 * 100)))
      ("Average " ++ toString (jsRound (timeSpent / (itemCount : ℚ))) ++ "s per item - adequate time")
  else
    createCheck "response_time" false
      (some (min 100 ((timeSpent / (itemCount : ℚ)) / 2 * 100)))
      ("Only " ++ toString (jsRound (timeSpent / (itemCount : ℚ))) ++ "s per item - possible rushing")

/-- Overall rating from the pass rate.  With no checks the JS pass rate is
`0/0 = NaN`, which fails every threshold and yields "poor". -/
def calculateOverallRating (checks : List ReliabilityCheck) : String :=
  if checks.length = 0 then "poor"
  else if ((checks.filter (fun c => c.passed)).length : ℚ) / (checks.length : ℚ) ≥ 0.9 then
    "excellent"
  else if ((checks.filter (fun c => c.passed)).length : ℚ) / (checks.length : ℚ) ≥ 0.7 then
    "good"
  else if ((checks.filter (fun c => c.passed)).length : ℚ) / (checks.length : ℚ) ≥ 0.5 then
    "questionable"
  else "poor"

/-- Names of the failed checks, in check order. -/
def generateFlags (checks : List ReliabilityCheck) : List String :=
  (checks.filter (fun c => !c.passed)).map (fun c => c.checkName)

/-- `checkReliability(assessment, answers, metadata)`: four unconditional
checks plus the response-time check when `metadata.timeSpent` is truthy and
positive. -/
def checkReliability (msqrt : ℚ → ℚ) (assessment : Assessment) (answers : List Answer)
    (metadata : Metadata) : ReliabilityResult :=
  let checks :=
    [checkStraightlining answers,
     checkVariability msqrt answers assessment.items,
     checkExtremeResponding answers assessment.items,
     checkCompletionRate answers assessment.items] ++
    (match metadata.timeSpent with
     | some t => if 0 < t then [checkResponseTime t assessment.items.length] else []
     | none => [])
  let overallRating := calculateOverallRating checks
  { isUsable := !(overallRating == "poor"), overallRating := overallRating,
    checks := checks, flags := generateFlags checks }

/-! ## Safe payload generator (share service) -/

/-- Score level label from a normalized score. -/
def getScoreLevel (normalizedScore : ℚ) : String :=
  if normalizedScore ≥ 80 then "very_high"
  else if normalizedScore ≥ 60 then "high"
  else if normalizedScore ≥ 40 then "moderate"
  else if normalizedScore ≥ 20 then "low"
  else "very_low"

/-- Human-readable description; the source looks the level up in an object with
exactly these five keys (the `|| 'Score available'` fallback is unreachable). -/
def getScoreDescription (dimensionName : String) (score : ℚ) : String :=
  if getScoreLevel score = "very_high" then "Very strong in " ++ dimensionName
  else if getScoreLevel score = "high" then "Above average in " ++ dimensionName
  else if getScoreLevel score = "moderate" then "Moderate " ++ dimensionName
  else if getScoreLevel score = "low" then "Below average in " ++ dimensionName
  else if getScoreLevel score = "very_low" then "Low " ++ dimensionName
  else "Score available"

/-- Similarity category from a similarity value. -/
def getSimilarityCategory (similarity : ℚ) : String :=
  if similarity ≥ 90 then "very_similar"
  else if similarity ≥ 75 then "similar"
  else if similarity ≥ 50 then "somewhat_different"
  else "very_different"

/-- Compatibility level from the overall similarity. -/
def getCompatibilityLevel (overallSimilarity : ℚ) : String :=
  if overallSimilarity ≥ 85 then "very_high"
  else if overallSimilarity ≥ 70 then "high"
  else if overallSimilarity ≥ 50 then "moderate"
  else if overallSimilarity ≥ 30 then "low"
  else "very_low"

/-- Textual interpretation of a pairwise dimension difference. -/
def getComparisonInterpretation (dimensionName : String) (score1 score2 : ℚ) : String :=
  if |score1 - score2| < 10 then "Very similar " ++ dimensionName
  else if |score1 - score2| < 25 then "Slight difference in " ++ dimensionName
  else if |score1 - score2| < 40 then "Moderate difference in " ++ dimensionName
  else "Significant difference in " ++ dimensionName

/-- Profile strength: average absolute deviation of the dimension scores from
50.  With an empty dimension list JS computes `0/0 = NaN`, which fails every
`>=` test and gives "balanced"; the rational `0/0 = 0` reaches the same branch. -/
def getProfileStrength (dimensions : List DimensionScore) : String :=
  if ((dimensions.map (fun d => |d.normalizedScore - 50|)).sum) / (dimensions.length : ℚ) ≥ 25 then
    "very_defined"
  else if ((dimensions.map (fun d => |d.normalizedScore - 50|)).sum) / (dimensions.length : ℚ) ≥ 15 then
    "defined"
  else if ((dimensions.map (fun d => |d.normalizedScore - 50|)).sum) / (dimensions.length : ℚ) ≥ 10 then
    "moderate"
  else "balanced"

/-- Anonymized profile identifier: first 12 base64 characters of the response
identifier, prefixed with "profile_". -/
def generateProfileId (responseId : String) : String :=
  "profile_" ++ (base64OfString responseId).take 12

/-- Comparison identifier: the two response identifiers are sorted into
canonical (ascending string) order, joined with "_", base64 encoded and
truncated to 16 characters. -/
def generateComparisonId (responseId1 responseId2 : String) : String :=
  "compare_" ++
    (base64OfString
      ((if responseId2 < responseId1 then responseId2 else responseId1) ++ "_" ++
       (if responseId2 < responseId1 then responseId1 else responseId2))).take 16

/-- One dimension entry of a share payload; `percentile = none` models the
`undefined` produced when `includePercentiles` is false. -/
structure ShareDimension where
  name : String
  score : ℚ
  percentile : Option ℚ
  level : String
  description : String
deriving DecidableEq

/-- The shareable profile (the `generatedAt` timestamp is omitted). -/
structure SharePayload where
  profileId : String
  userId : String
  assessmentVersion : String
  overallScore : ℚ
  dimensions : List ShareDimension
  profileStrength : String
  disclaimer : String
deriving DecidableEq

/-- Result of `generateSharePayload`: an error object or a profile. -/
inductive ShareResult where
  | err (error : String) (rating : String)
  | profile (payload : SharePayload)
deriving DecidableEq

/-- The `userId` field carried by a share result, if it is a profile. -/
def ShareResult.userIdField : ShareResult → Option String
  | .err _ _ => none
  | .profile p => some p.userId

/-- `generateSharePayload(assessmentResponse, includePercentiles = true)`. -/
def generateSharePayload (assessmentResponse : AssessmentResponse)
    (includePercentiles : Bool := true) : ShareResult :=
  if !assessmentResponse.reliability.isUsable then
    .err "Response quality too low to share" assessmentResponse.reliability.overallRating
  else
    .profile
      { profileId := generateProfileId assessmentResponse.responseId,
        userId := assessmentResponse.userId,
        assessmentVersion := assessmentResponse.assessmentId,
        overallScore := assessmentResponse.scores.overallScore,
        dimensions := assessmentResponse.scores.dimensions.map (fun dim =>
          { name := dim.name,
            score := dim.normalizedScore,
            percentile := if includePercentiles then some dim.percentile else none,
            level := getScoreLevel dim.normalizedScore,
            description := getScoreDescription dim.name dim.normalizedScore }),
        profileStrength := getProfileStrength assessmentResponse.scores.dimensions,
        disclaimer := "For informational purposes only. Not for clinical diagnosis." }

/-- One row of a dimension-by-dimension comparison. -/
structure DimensionComparison where
  dimensionId : String
  dimensionName : String
  profile1Score : ℚ
  profile2Score : ℚ
  difference : ℚ
  similarity : ℚ
  category : String
  interpretation : String
deriving DecidableEq

/-- `compareDimensions(dimensions1, dimensions2)`: dimensions of the first
response matched by id in the second; unmatched ones are silently skipped. -/
def compareDimensions (dimensions1 dimensions2 : List DimensionScore) :
    List DimensionComparison :=
  dimensions1.filterMap (fun dim1 =>
    (dimensions2.find? (fun d => d.dimensionId == dim1.dimensionId)).map (fun dim2 =>
      { dimensionId := dim1.dimensionId,
        dimensionName := dim1.name,
        profile1Score := dim1.normalizedScore,
        profile2Score := dim2.normalizedScore,
        difference := (jsRound |dim1.normalizedScore - dim2.normalizedScore| : ℚ),
        similarity := (jsRound (100 - |dim1.normalizedScore - dim2.normalizedScore|) : ℚ),
        category := getSimilarityCategory (100 - |dim1.normalizedScore - dim2.normalizedScore|),
        interpretation :=
          getComparisonInterpretation dim1.name dim1.normalizedScore dim2.normalizedScore }))

/-- Mean of the per-dimension similarities, 0 with no matched dimensions. -/
def calculateOverallSimilarity (comparisons : List DimensionComparison) : ℚ :=
  if comparisons.length = 0 then 0
  else ((comparisons.map (fun c => c.similarity)).sum) / (comparisons.length : ℚ)

/-- Strongest entry reported in the comparison summary. -/
structure StrongestEntry where
  dimension : String
  score : ℚ
deriving DecidableEq

/-- `findStrongest(comparisons, type)`: a JS `reduce` without seed, so the
first element is the accumulator and ties keep the first-encountered one. -/
def findStrongest (comparisons : List DimensionComparison) (type : String) :
    Option StrongestEntry :=
  match comparisons with
  | [] => none
  | c :: rest =>
    if type = "similarity" then
      some
        { dimension := (rest.foldl (fun mx comp =>
            if comp.similarity > mx.similarity then comp else mx) c).dimensionName,
          score := (rest.foldl (fun mx comp =>
            if comp.similarity > mx.similarity then comp else mx) c).similarity }
    else
      some
        { dimension := (rest.foldl (fun mx comp =>
            if comp.difference > mx.difference then comp else mx) c).dimensionName,
          score := (rest.foldl (fun mx comp =>
            if comp.difference > mx.difference then comp else mx) c).difference }

/-- The anonymized-plus-raw identity block of one side of a comparison. -/
structure CompareProfileRef where
  profileId : String
  userId : String
deriving DecidableEq

/-- Summary block of a comparison payload. -/
structure CompareSummary where
  similarAreas : List String
  differentAreas : List String
  strongestSimilarity : Option StrongestEntry
  largestDifference : Option StrongestEntry
deriving DecidableEq

/-- The comparison payload (the `generatedAt` timestamp is omitted). -/
structure ComparePayload where
  comparisonId : String
  profile1 : CompareProfileRef
  profile2 : CompareProfileRef
  overallSimilarity : ℚ
  compatibilityLevel : String
  dimensions : List DimensionComparison
  summary : CompareSummary
  disclaimer : String
deriving DecidableEq

/-- Result of `generateComparePayload`: an error object or a comparison. -/
inductive CompareResult where
  | err (error : String)
  | comparison (payload : ComparePayload)
deriving DecidableEq

/-- The pair of `userId` fields carried by a compare result, if any. -/
def CompareResult.userIds : CompareResult → Option (String × String)
  | .err _ => none
  | .comparison p => some (p.profile1.userId, p.profile2.userId)

/-- `generateComparePayload(response1, response2)`. -/
def generateComparePayload (response1 response2 : AssessmentResponse) : CompareResult :=
  if !response1.reliability.isUsable || !response2.reliability.isUsable then
    .err "One or both profiles have insufficient quality"
  else
    let dimensionComparisons :=
      compareDimensions response1.scores.dimensions response2.scores.dimensions
    let overallSimilarity := calculateOverallSimilarity dimensionComparisons
    .comparison
      { comparisonId := generateComparisonId response1.responseId response2.responseId,
        profile1 :=
          { profileId := generateProfileId response1.responseId, userId := response1.userId },
        profile2 :=
          { profileId := generateProfileId response2.responseId, userId := response2.userId },
        overallSimilarity := (jsRound overallSimilarity : ℚ),
        compatibilityLevel := getCompatibilityLevel overallSimilarity,
        dimensions := dimensionComparisons,
        summary :=
          { similarAreas := ((dimensionComparisons.filter (fun d => d.similarity ≥ 75)).map
              (fun d => d.dimensionName)),
            differentAreas := ((dimensionComparisons.filter (fun d => d.similarity < 75)).map
              (fun d => d.dimensionName)),
            strongestSimilarity := findStrongest dimensionComparisons "similarity",
            largestDifference := findStrongest dimensionComparisons "difference" },
        disclaimer := "For informational purposes only." }

/-! ## Concrete data: the personality-v1 sample assessment and test responses -/

/-- The personality-v1 sample assessment created by the controller:
3 dimensions, 3 items each, 1..5 scale, q2/q5/q8 reversed, all weights 1. -/
def sampleAssessment : Assessment :=
  { assessmentId := "personality-v1",
    dimensions :=
      [{ dimensionId := "extraversion", name := "Extraversion",
         description := "Tendency to seek stimulation and enjoy company of others" },
       { dimensionId := "agreeableness", name := "Agreeableness",
         description := "Tendency to be compassionate and cooperative" },
       { dimensionId := "conscientiousness", name := "Conscientiousness",
         description := "Tendency to be organized and dependable" }],
    items :=
      [{ itemId := "q1", dimensionId := "extraversion", isReversed := false,
         weight := 1, minValue := 1, maxValue := 5 },
       { itemId := "q2", dimensionId := "extraversion", isReversed := true,
         weight := 1, minValue := 1, maxValue := 5 },
       { itemId := "q3", dimensionId := "extraversion", isReversed := false,
         weight := 1, minValue := 1, maxValue := 5 },
       { itemId := "q4", dimensionId := "agreeableness", isReversed := false,
         weight := 1, minValue := 1, maxValue := 5 },
       { itemId := "q5", dimensionId := "agreeableness", isReversed := true,
         weight := 1, minValue := 1, maxValue := 5 },
       { itemId := "q6", dimensionId := "agreeableness", isReversed := false,
         weight := 1, minValue := 1, maxValue := 5 },
       { itemId := "q7", dimensionId := "conscientiousness", isReversed := false,
         weight := 1, minValue := 1, maxValue := 5 },
       { itemId := "q8", dimensionId := "conscientiousness", isReversed := true,
         weight := 1, minValue := 1, maxValue := 5 },
       { itemId := "q9", dimensionId := "conscientiousness", isReversed := false,
         weight := 1, minValue := 1, maxValue := 5 }] }

/-- The answer set `[5,2,4,5,1,4,5,2,4]` for items q1..q9. -/
def sampleAnswers : List Answer :=
  [⟨"q1", some 5⟩, ⟨"q2", some 2⟩, ⟨"q3", some 4⟩,
   ⟨"q4", some 5⟩, ⟨"q5", some 1⟩, ⟨"q6", some 4⟩,
   ⟨"q7", some 5⟩, ⟨"q8", some 2⟩, ⟨"q9", some 4⟩]

/-- A usable stored response. -/
def goodResponse : AssessmentResponse :=
  { responseId := "resp-1", userId := "user-123", assessmentId := "personality-v1",
    answers := sampleAnswers,
    scores :=
      { dimensions :=
          [⟨"extraversion", "Extraversion", 13, 83.33, 99⟩,
           ⟨"agreeableness", "Agreeableness", 14, 91.67, 99⟩,
           ⟨"conscientiousness", "Conscientiousness", 13, 83.33, 99⟩],
        overallScore := 86.11 },
    reliability := { isUsable := true, overallRating := "excellent", checks := [], flags := [] },
    metadata := ⟨some 60⟩ }

/-- A second usable stored response from a different user. -/
def goodResponse2 : AssessmentResponse :=
  { responseId := "resp-2", userId := "user-456", assessmentId := "personality-v1",
    answers := sampleAnswers,
    scores :=
      { dimensions :=
          [⟨"extraversion", "Extraversion", 9, 50, 50⟩,
           ⟨"agreeableness", "Agreeableness", 12, 75, 95⟩,
           ⟨"conscientiousness", "Conscientiousness", 7, 33.33, 13⟩],
        overallScore := 52.78 },
    reliability := { isUsable := true, overallRating := "good", checks := [], flags := [] },
    metadata := ⟨some 45⟩ }

/-- An unusable stored response. -/
def badResponse : AssessmentResponse :=
  { responseId := "resp-3", userId := "user-789", assessmentId := "personality-v1",
    answers := [],
    scores := { dimensions := [], overallScore := 0 },
    reliability :=
      { isUsable := false, overallRating := "poor", checks := [],
        flags := ["straightlining", "variability", "extreme_responding", "completion_rate"] },
    metadata := ⟨none⟩ }

/-- Membership of a check score in the 0..100 range as a finite number. -/
def scoreInRange (c : ReliabilityCheck) : Prop :=
  ∃ q : ℚ, c.score = some q ∧ 0 ≤ q ∧ q ≤ 100

/-! ## Helper lemmas -/

/-- The executable `jsRound` is the floor of `q + 1/2`. -/
theorem jsRound_def (q : ℚ) : jsRound q = ⌊q + 1/2⌋ :=
  (Rat.floor_def' _).trans (Rat.floor_def).symm

/-- Two-decimal rounding preserves nonnegativity. -/
theorem round2_nonneg {q : ℚ} (h : 0 ≤ q) : 0 ≤ round2 q := by
  unfold round2
  rw [jsRound_def]
  have h0 : (0:ℤ) ≤ ⌊q * 100 + 1/2⌋ := Int.floor_nonneg.mpr (by nlinarith)
  have h1 : (0:ℚ) ≤ ((⌊q * 100 + 1/2⌋ : ℤ) : ℚ) := by exact_mod_cast h0
  exact div_nonneg h1 (by norm_num)

/-- Two-decimal rounding preserves the upper bound 100. -/
theorem round2_le_100 {q : ℚ} (h : q ≤ 100) : round2 q ≤ 100 := by
  unfold round2
  rw [jsRound_def]
  have h1 : ⌊q * 100 + 1/2⌋ ≤ ⌊(10000:ℚ) + 1/2⌋ := Int.floor_mono (by nlinarith)
  have h2 : ⌊(10000:ℚ) + 1/2⌋ = 10000 := by norm_num
  rw [div_le_iff (by norm_num : (0:ℚ) < 100)]
  have h3 : ((⌊q * 100 + 1/2⌋ : ℤ) : ℚ) ≤ ((10000 : ℤ) : ℚ) := by
    exact_mod_cast h1.trans_eq h2
  linarith

/-- A check built from a finite score in 0..100 has its rounded score in range. -/
theorem scoreInRange_createCheck {q : ℚ} (h0 : 0 ≤ q) (h1 : q ≤ 100)
    (nm : String) (p : Bool) (msg : String) :
    scoreInRange (createCheck nm p (some q) msg) :=
  ⟨round2 q, rfl, round2_nonneg h0, round2_le_100 h1⟩

/-- Folding `max` over a list keeps a nonnegative accumulator nonnegative. -/
theorem foldl_max_nonneg (l : List ℚ) {c : ℚ} (hc : 0 ≤ c) : 0 ≤ l.foldl max c := by
  induction l generalizing c with
  | nil => exact hc
  | cons x xs ih => exact ih (le_trans hc (le_max_left c x))

/-- The straightlining check always yields a finite score in 0..100. -/
theorem checkStraightlining_range (answers : List Answer) :
    scoreInRange (checkStraightlining answers) := by
  unfold checkStraightlining
  split
  · exact scoreInRange_createCheck (by norm_num) (by norm_num) _ _ _
  · rename_i hlen
    split
    · exact scoreInRange_createCheck (by norm_num) (by norm_num) _ _ _
    · rename_i c cs hcounts
      split
      · exact scoreInRange_createCheck (by norm_num) (by norm_num) _ _ _
      · rename_i hp
        have hc0 : 0 ≤ c := by
          have hmem : c ∈ straightlineCounts answers := by
            rw [hcounts]; exact List.mem_cons_self _ _
          unfold straightlineCounts at hmem
          rw [List.mem_map] at hmem
          obtain ⟨v, _, rfl⟩ := hmem
          exact_mod_cast Nat.zero_le _
        have hm : 0 ≤ cs.foldl max c := foldl_max_nonneg cs hc0
        have hden : (0:ℚ) < (answers.length : ℚ) := by
          exact_mod_cast Nat.pos_of_ne_zero hlen
        have hp0 : 0 ≤ cs.foldl max c / (answers.length : ℚ) * 100 :=
          mul_nonneg (div_nonneg hm hden.le) (by norm_num)
        exact scoreInRange_createCheck (le_max_left _ _)
          (max_le (by norm_num) (by linarith)) _ _ _

/-- The variability check yields a finite score in 0..100 whenever the sample
item's scale range is positive and the square-root model is nonnegative. -/
theorem checkVariability_range (msqrt : ℚ → ℚ) (answers : List Answer) (items : List Item)
    (hsqrt : ∀ x : ℚ, 0 ≤ msqrt x)
    (hfirst : ∀ it ∈ items.take 1, it.minValue < it.maxValue) :
    scoreInRange (checkVariability msqrt answers items) := by
  have hrange : 0 < variabilityScaleRange items := by
    cases items with
    | nil => norm_num [variabilityScaleRange]
    | cons it rest =>
      have h := hfirst it (by simp)
      simp only [variabilityScaleRange]
      linarith
  unfold checkVariability
  split
  · exact scoreInRange_createCheck (by norm_num) (by norm_num) _ _ _
  · rw [if_neg hrange.ne']
    have hs : 0 ≤ msqrt (varianceOf (variabilityValues answers)) / variabilityScaleRange items * 400 :=
      mul_nonneg (div_nonneg (hsqrt _) hrange.le) (by norm_num)
    split
    · exact scoreInRange_createCheck (le_min (by norm_num) hs) (min_le_left _ _) _ _ _
    · exact scoreInRange_createCheck (le_min (by norm_num) hs) (min_le_left _ _) _ _ _

/-- The extreme-responding percentage is between 0 and 100. -/
theorem extremePercentOf_bounds (answers : List Answer) (items : List Item) :
    0 ≤ extremePercentOf answers items ∧ extremePercentOf answers items ≤ 100 := by
  unfold extremePercentOf
  split
  · rename_i hpos
    have ht : (0:ℚ) < ((extremePairs answers items).length : ℚ) := by exact_mod_cast hpos
    have hle : ((extremePairs answers items).filter
        (fun p => p.1 == p.2.minValue || p.1 == p.2.maxValue)).length ≤
        (extremePairs answers items).length := List.length_filter_le _ _
    have hleq : (((extremePairs answers items).filter
        (fun p => p.1 == p.2.minValue || p.1 == p.2.maxValue)).length : ℚ) ≤
        ((extremePairs answers items).length : ℚ) := by exact_mod_cast hle
    constructor
    · positivity
    · rw [div_mul_eq_mul_div, div_le_iff ht]
      nlinarith
  · norm_num

/-- The extreme-responding check always yields a finite score in 0..100. -/
theorem checkExtremeResponding_range (answers : List Answer) (items : List Item) :
    scoreInRange (checkExtremeResponding answers items) := by
  obtain ⟨hb0, hb1⟩ := extremePercentOf_bounds answers items
  unfold checkExtremeResponding
  split
  · exact scoreInRange_createCheck (by norm_num) (by norm_num) _ _ _
  · split
    · exact scoreInRange_createCheck (by norm_num) (by norm_num) _ _ _
    · exact scoreInRange_createCheck (le_max_left _ _)
        (max_le (by norm_num) (by linarith)) _ _ _

/-- The completion-rate check yields a finite score in 0..100 when there is at
least one item and no more answered entries than items. -/
theorem checkCompletionRate_range (answers : List Answer) (items : List Item)
    (hitems : items.length ≠ 0)
    (hcount : (answers.filter (fun a => a.value.isSome)).length ≤ items.length) :
    scoreInRange (checkCompletionRate answers items) := by
  have ht : (0:ℚ) < (items.length : ℚ) := by exact_mod_cast Nat.pos_of_ne_zero hitems
  have hb0 : 0 ≤ completionPercentOf answers items := by
    unfold completionPercentOf; positivity
  have hb1 : completionPercentOf answers items ≤ 100 := by
    unfold completionPercentOf
    have hleq : ((answers.filter (fun a => a.value.isSome)).length : ℚ) ≤ (items.length : ℚ) := by
      exact_mod_cast hcount
    rw [div_mul_eq_mul_div, div_le_iff ht]
    nlinarith
  unfold checkCompletionRate
  rw [if_neg hitems]
  split
  · exact scoreInRange_createCheck hb0 hb1 _ _ _
  · exact scoreInRange_createCheck hb0 hb1 _ _ _

/-- The response-time check yields a finite score in 0..100 for a nonnegative
time and a positive item count. -/
theorem checkResponseTime_range (t : ℚ) (n : ℕ) (ht : 0 ≤ t) (hn : n ≠ 0) :
    scoreInRange (checkResponseTime t n) := by
  have hpos : (0:ℚ) < (n:ℚ) := by exact_mod_cast Nat.pos_of_ne_zero hn
  have hs : 0 ≤ t / (n:ℚ) / 2 * 100 := by positivity
  unfold checkResponseTime
  rw [if_neg hn]
  split
  · exact scoreInRange_createCheck (le_min (by norm_num) hs) (min_le_left _ _) _ _ _
  · exact scoreInRange_createCheck (le_min (by norm_num) hs) (min_le_left _ _) _ _ _

/-- The polynomial term of the CDF approximation is even in `z`. -/
theorem cdfProb_neg (mexp : ℚ → ℚ) (z : ℚ) : cdfProb mexp (-z) = cdfProb mexp z := by
  unfold cdfProb
  rw [abs_neg, show (-(-z) * -z / 2 : ℚ) = -z * z / 2 from by ring]

/-- CDF symmetry away from zero: `normalCDF(-z) = 1 - normalCDF(z)` for `z ≠ 0`. -/
theorem normalCDF_symm (mexp : ℚ → ℚ) {z : ℚ} (hz : z ≠ 0) :
    normalCDF mexp (-z) = 1 - normalCDF mexp z := by
  unfold normalCDF
  rcases lt_or_gt_of_ne hz with h | h
  · rw [if_pos (by linarith : -z > 0), if_neg (by linarith : ¬ z > 0), cdfProb_neg]
  · rw [if_neg (by linarith : ¬ -z > 0), if_pos h, cdfProb_neg]
    ring

/-! ## Claim theorems -/

/-- C1: the spec claims the share payload identifies the subject only through
the anonymized profile identifier, with no real user identifier; the code (in
contradiction with its own header comment that the user's real ID is hidden)
puts the raw `userId` into every usable share payload.  Evaluated at a usable
response with user identifier "user-123". -/
theorem c1_share_payload_contains_real_user_id :
    ShareResult.userIdField (generateSharePayload goodResponse) = some "user-123" ∧
    goodResponse.userId = "user-123" :=
  ⟨rfl, rfl⟩

/-- C2: a response with `reliability.isUsable = false` always gets the
`{error, rating}` object from `generateSharePayload`, and a pair with at least
one unusable side always gets the error object from `generateComparePayload`. -/
theorem c2_unusable_never_shared (r r1 r2 : AssessmentResponse) (ip : Bool)
    (h : r.reliability.isUsable = false)
    (h12 : r1.reliability.isUsable = false ∨ r2.reliability.isUsable = false) :
    generateSharePayload r ip =
      ShareResult.err "Response quality too low to share" r.reliability.overallRating ∧
    generateComparePayload r1 r2 =
      CompareResult.err "One or both profiles have insufficient quality" := by
  constructor
  · simp [generateSharePayload, h]
  · rcases h12 with h1 | h1 <;> simp [generateComparePayload, h1]

/-- C2 witness: the error objects at concrete unusable responses. -/
theorem c2_unusable_never_shared_witness :
    generateSharePayload badResponse true =
      ShareResult.err "Response quality too low to share" badResponse.reliability.overallRating ∧
    generateComparePayload badResponse goodResponse =
      CompareResult.err "One or both profiles have insufficient quality" :=
  c2_unusable_never_shared badResponse badResponse goodResponse true rfl (Or.inl rfl)

/-- C3 counterexample: on the non-empty all-null answer list `[{q1, null}]`
both the straightlining check and the extreme-responding check PASS with score
100 (for straightlining via the JS `Math.max() = -Infinity` path), not fail
with score 0 as the claim states. -/
theorem c3_counterexample :
    (checkStraightlining [⟨"q1", none⟩]).passed = true ∧
    (checkStraightlining [⟨"q1", none⟩]).score = some 100 ∧
    (checkExtremeResponding [⟨"q1", none⟩] [⟨"q1", "d", false, 1, 1, 5⟩]).passed = true ∧
    (checkExtremeResponding [⟨"q1", none⟩] [⟨"q1", "d", false, 1, 1, 5⟩]).score = some 100 := by
  refine ⟨?_, ?_, ?_, ?_⟩ <;>
    simp [checkStraightlining, straightlineCounts, checkExtremeResponding, extremePercentOf,
      extremePairs, createCheck, round2, jsRound_def] <;>
    norm_num

/-- C3 amended: with zero answered values the two checks fail with score 0 and
an explanatory message only when the answer list is EMPTY; on a non-empty
all-null list both checks pass with score 100. -/
theorem c3_amended (answers : List Answer) (items : List Item)
    (hnull : ∀ a ∈ answers, a.value = none) :
    (answers = [] →
      checkStraightlining answers = ⟨"straightlining", false, some 0, "No answers provided"⟩ ∧
      checkExtremeResponding answers items =
        ⟨"extreme_responding", false, some 0, "No answers"⟩) ∧
    (answers ≠ [] →
      (checkStraightlining answers).passed = true ∧
      (checkStraightlining answers).score = some 100 ∧
      (checkExtremeResponding answers items).passed = true ∧
      (checkExtremeResponding answers items).score = some 100) := by
  constructor
  · rintro rfl
    constructor
    · simp [checkStraightlining, createCheck]
      norm_num [round2, jsRound_def]
    · simp [checkExtremeResponding, createCheck]
      norm_num [round2, jsRound_def]
  · intro hne
    have hvals : answers.filterMap (fun a => a.value) = [] :=
      List.filterMap_eq_nil_iff.mpr hnull
    have hcounts : straightlineCounts answers = [] := by
      unfold straightlineCounts
      rw [hvals]
      rfl
    have hlen : ¬ (answers.length = 0) := by
      simpa [List.length_eq_zero] using hne
    have hpairs : extremePairs answers items = [] := by
      unfold extremePairs
      rw [List.filterMap_eq_nil_iff]
      intro a ha
      rw [hnull a ha]
      rfl
    have hperc : extremePercentOf answers items = 0 := by
      unfold extremePercentOf
      rw [hpairs]
      norm_num
    have h70 : extremePercentOf answers items ≤ 70 := by rw [hperc]; norm_num
    refine ⟨?_, ?_, ?_, ?_⟩
    · unfold checkStraightlining
      rw [if_neg hlen, hcounts]
      rfl
    · unfold checkStraightlining
      rw [if_neg hlen, hcounts]
      show (some (round2 100) : Option ℚ) = some 100
      norm_num [round2, jsRound_def]
    · unfold checkExtremeResponding
      rw [if_neg hlen, if_pos h70]
      rfl
    · unfold checkExtremeResponding
      rw [if_neg hlen, if_pos h70]
      show (some (round2 100) : Option ℚ) = some 100
      norm_num [round2, jsRound_def]

/-- C3 witness: the amended claim instantiated at the all-null list `[{q1, null}]`. -/
theorem c3_amended_witness :
    (([⟨"q1", none⟩] : List Answer) = [] →
      checkStraightlining [⟨"q1", none⟩] =
        ⟨"straightlining", false, some 0, "No answers provided"⟩ ∧
      checkExtremeResponding [⟨"q1", none⟩] [] =
        ⟨"extreme_responding", false, some 0, "No answers"⟩) ∧
    (([⟨"q1", none⟩] : List Answer) ≠ [] →
      (checkStraightlining [⟨"q1", none⟩]).passed = true ∧
      (checkStraightlining [⟨"q1", none⟩]).score = some 100 ∧
      (checkExtremeResponding [⟨"q1", none⟩] []).passed = true ∧
      (checkExtremeResponding [⟨"q1", none⟩] []).score = some 100) :=
  c3_amended [⟨"q1", none⟩] [] (by simp)

/-- C4 counterexample: with duplicate item identifiers in the answers (two
non-null answers for q1 against a one-item assessment) the completion-rate
check records score 200, outside the claimed 0..100 range. -/
theorem c4_counterexample :
    (checkCompletionRate [⟨"q1", some 3⟩, ⟨"q1", some 3⟩]
        [⟨"q1", "d", false, 1, 1, 5⟩]).score = some 200 ∧
    ¬ ((200:ℚ) ≤ 100) := by
  constructor
  · simp [checkCompletionRate, completionPercentOf, createCheck, round2, jsRound_def]
    norm_num
  · norm_num

/-- C4 amended: every check score is a finite number in 0..100 provided the
degenerate divisions are excluded: the square-root model is nonnegative, the
variability sample item has a positive scale range, there is at least one item,
the answered entries do not outnumber the items (completion rate), and the
response time is nonnegative over a positive item count.  Straightlining and
extreme responding need no side condition. -/
theorem c4_amended (msqrt : ℚ → ℚ) (answers : List Answer) (items : List Item) (t : ℚ) (n : ℕ)
    (hsqrt : ∀ x : ℚ, 0 ≤ msqrt x)
    (hfirst : ∀ it ∈ items.take 1, it.minValue < it.maxValue)
    (hitems : items.length ≠ 0)
    (hcount : (answers.filter (fun a => a.value.isSome)).length ≤ items.length)
    (ht : 0 ≤ t) (hn : n ≠ 0) :
    scoreInRange (checkStraightlining answers) ∧
    scoreInRange (checkVariability msqrt answers items) ∧
    scoreInRange (checkExtremeResponding answers items) ∧
    scoreInRange (checkCompletionRate answers items) ∧
    scoreInRange (checkResponseTime t n) :=
  ⟨checkStraightlining_range answers,
   checkVariability_range msqrt answers items hsqrt hfirst,
   checkExtremeResponding_range answers items,
   checkCompletionRate_range answers items hitems hcount,
   checkResponseTime_range t n ht hn⟩

/-- C4 witness: the amended claim at a concrete well-formed input. -/
theorem c4_amended_witness :
    scoreInRange (checkStraightlining []) ∧
    scoreInRange (checkVariability (fun _ => 0) [] [⟨"q1", "d", false, 1, 1, 5⟩]) ∧
    scoreInRange (checkExtremeResponding [] [⟨"q1", "d", false, 1, 1, 5⟩]) ∧
    scoreInRange (checkCompletionRate [] [⟨"q1", "d", false, 1, 1, 5⟩]) ∧
    scoreInRange (checkResponseTime 4 2) :=
  c4_amended (fun _ => 0) [] [⟨"q1", "d", false, 1, 1, 5⟩] 4 2
    (fun _ => le_refl 0) (by norm_num) (by norm_num) (by simp) (by norm_num) (by norm_num)

/-- C5 counterexample: for the zero-item assessment with no answers, the
completion-rate check's score is not 0 but `NaN` (the source divides zero by
zero; the non-finite score is modelled as `none`), so not every check fails
gracefully with score 0 as claimed. -/
theorem c5_counterexample :
    ((checkReliability (fun _ => 0) ⟨"empty", [], []⟩ [] ⟨none⟩).checks.map
      (fun c => c.score)) = [some 0, some 0, some 0, none] ∧
    (none : Option ℚ) ≠ some 0 := by
  constructor
  · simp [checkReliability, checkStraightlining, checkVariability, checkExtremeResponding,
      checkCompletionRate, straightlineCounts, variabilityValues, extremePercentOf, extremePairs,
      completionPercentOf, createCheck, round2, jsRound_def]
    norm_num
  · simp

/-- C5 amended: on a zero-item assessment with an empty answer set (and no time
metadata) `checkReliability` still returns a well-defined result without
raising: straightlining, variability and extreme responding fail with score 0
and explanatory messages, but completion rate divides zero by zero and fails
with a `NaN` (non-finite) score and its message; the rating is "poor", the
response is unusable and all four checks are flagged. -/
theorem c5_amended (msqrt : ℚ → ℚ) (A : Assessment) (md : Metadata)
    (hA : A.items = []) (hmd : md.timeSpent = none) :
    checkReliability msqrt A [] md =
      { isUsable := false, overallRating := "poor",
        checks := [⟨"straightlining", false, some 0, "No answers provided"⟩,
                   ⟨"variability", false, some 0, "Not enough answers"⟩,
                   ⟨"extreme_responding", false, some 0, "No answers"⟩,
                   ⟨"completion_rate", false, none, "Only NaN% completed - too many skipped"⟩],
        flags := ["straightlining", "variability", "extreme_responding", "completion_rate"] } := by
  obtain ⟨aid, dims, its⟩ := A
  obtain ⟨ts⟩ := md
  dsimp only at hA hmd
  subst hA hmd
  simp [checkReliability, checkStraightlining, checkVariability, checkExtremeResponding,
    checkCompletionRate, straightlineCounts, variabilityValues, extremePercentOf, extremePairs,
    completionPercentOf, createCheck, calculateOverallRating, generateFlags,
    round2, jsRound_def]
  norm_num

/-- C5 witness: the amended claim at the concrete zero-item assessment. -/
theorem c5_amended_witness :
    checkReliability (fun _ => 0) ⟨"empty-v1", [], []⟩ [] ⟨none⟩ =
      { isUsable := false, overallRating := "poor",
        checks := [⟨"straightlining", false, some 0, "No answers provided"⟩,
                   ⟨"variability", false, some 0, "Not enough answers"⟩,
                   ⟨"extreme_responding", false, some 0, "No answers"⟩,
                   ⟨"completion_rate", false, none, "Only NaN% completed - too many skipped"⟩],
        flags := ["straightlining", "variability", "extreme_responding", "completion_rate"] } :=
  c5_amended (fun _ => 0) ⟨"empty-v1", [], []⟩ ⟨none⟩ rfl rfl

/-- C6: on the personality-v1 definition with answers `[5,2,4,5,1,4,5,2,4]`,
every dimension's raw score is the sum of its three (possibly reversed) answer
values — extraversion `5 + reverse(2,1,5) + 4 = 13` with normalized score
`round2(((13-3)/(15-3))*100) = 83.33` — independently of the `Math.exp` model
used for the (unexamined) percentile field. -/
theorem c6_sample_scoring (mexp : ℚ → ℚ) :
    ((scoreAssessment mexp sampleAssessment sampleAnswers).dimensions.map
      (fun d => (d.dimensionId, d.rawScore, d.normalizedScore)))
      = [("extraversion", 13, 83.33), ("agreeableness", 14, 91.67),
         ("conscientiousness", 13, 83.33)] ∧
    (13 : ℚ) = 5 + reverseScore 2 1 5 + 4 ∧
    (83.33 : ℚ) = round2 (((13 - 3) / (15 - 3)) * 100) := by
  refine ⟨?_, by norm_num [reverseScore], by norm_num [round2, jsRound_def]⟩
  simp [scoreAssessment, sampleAssessment, sampleAnswers, groupByDimension,
    calculateDimensionScore, reverseScore, normalizeScore, round2, jsRound_def]
  norm_num

/-- C6 witness: the statement at the identity-free concrete `Math.exp` model. -/
theorem c6_sample_scoring_witness :
    ((scoreAssessment (fun _ => 1) sampleAssessment sampleAnswers).dimensions.map
      (fun d => (d.dimensionId, d.rawScore, d.normalizedScore)))
      = [("extraversion", 13, 83.33), ("agreeableness", 14, 91.67),
         ("conscientiousness", 13, 83.33)] ∧
    (13 : ℚ) = 5 + reverseScore 2 1 5 + 4 ∧
    (83.33 : ℚ) = round2 (((13 - 3) / (15 - 3)) * 100) :=
  c6_sample_scoring (fun _ => 1)

/-- C7 counterexample: the percentile of the exact midpoint is NOT exactly 50:
in exact arithmetic the approximation gives `0.3989423 * 1.2533137 * 100` at
`z = 0` (the only use of `Math.exp` is `exp(0) = 1`, matched by the model). -/
theorem c7_counterexample : calculatePercentile (fun _ => 1) 50 ≠ 50 := by
  unfold calculatePercentile normalCDF cdfProb
  norm_num

/-- C7 amended: for any `Math.exp` model with `exp(0) = 1`, the midpoint
percentile is exactly `49.999985009951` — within `10⁻⁴` of 50, but not 50. -/
theorem c7_amended (mexp : ℚ → ℚ) (h : mexp 0 = 1) :
    calculatePercentile mexp 50 = 49999985009951 / 10 ^ 12 ∧
    |calculatePercentile mexp 50 - 50| < 1 / 10 ^ 4 := by
  have hv : calculatePercentile mexp 50 = 49999985009951 / 10 ^ 12 := by
    unfold calculatePercentile normalCDF cdfProb
    have e1 : ((50:ℚ) - 50) / 15 = 0 := by norm_num
    rw [e1]
    norm_num [h]
  refine ⟨hv, ?_⟩
  rw [hv]
  rw [show (49999985009951 / 10 ^ 12 - 50 : ℚ) = -(14990049 / 10 ^ 12) from by norm_num, abs_neg,
    abs_of_nonneg (by norm_num : (0:ℚ) ≤ 14990049 / 10 ^ 12)]
  norm_num

/-- C7 witness: the amended claim at the model `exp = const 1` (only `exp 0`
is consulted). -/
theorem c7_amended_witness :
    calculatePercentile (fun _ : ℚ => 1) 50 = 49999985009951 / 10 ^ 12 ∧
    |calculatePercentile (fun _ : ℚ => 1) 50 - 50| < 1 / 10 ^ 4 :=
  c7_amended (fun _ => 1) rfl

/-- C8 counterexample: the symmetry `normalCDF(-z) = 1 - normalCDF(z)` claimed
for every `z` fails at `z = 0`, and correspondingly
`percentile(50) + percentile(100-50) ≠ 100`. -/
theorem c8_counterexample :
    ¬ (normalCDF (fun _ => 1) (-(0:ℚ)) = 1 - normalCDF (fun _ => 1) 0) ∧
    calculatePercentile (fun _ => 1) 50 + calculatePercentile (fun _ => 1) (100 - 50) ≠ 100 := by
  constructor
  · unfold normalCDF cdfProb
    norm_num
  · unfold calculatePercentile normalCDF cdfProb
    norm_num

/-- C8 amended: for every `Math.exp` model, every `z ≠ 0` satisfies
`normalCDF(-z) = 1 - normalCDF(z)`, and every `x ≠ 50` satisfies
`percentile(x) + percentile(100 - x) = 100`; at `z = 0` (x = 50) the identity
fails by twice the midpoint defect. -/
theorem c8_amended (mexp : ℚ → ℚ) (z x : ℚ) (hz : z ≠ 0) (hx : x ≠ 50) :
    normalCDF mexp (-z) = 1 - normalCDF mexp z ∧
    calculatePercentile mexp x + calculatePercentile mexp (100 - x) = 100 := by
  refine ⟨normalCDF_symm mexp hz, ?_⟩
  unfold calculatePercentile
  have hxz : (x - 50) / 15 ≠ 0 := by
    intro hcon
    apply hx
    have : x - 50 = 0 := by
      field_simp at hcon
      linarith
    linarith
  have h1 : (100 - x - 50) / 15 = -((x - 50) / 15) := by ring
  rw [h1, normalCDF_symm mexp hxz]
  ring

/-- C8 witness: the amended claim at `z = 1`, `x = 60`. -/
theorem c8_amended_witness :
    normalCDF (fun _ : ℚ => 1) (-1) = 1 - normalCDF (fun _ : ℚ => 1) 1 ∧
    calculatePercentile (fun _ : ℚ => 1) 60 + calculatePercentile (fun _ : ℚ => 1) (100 - 60) = 100 :=
  c8_amended (fun _ => 1) 1 60 (by norm_num) (by norm_num)

/-- C9: the comparison identifier is symmetric in its two response
identifiers, because the pair is sorted into canonical order before encoding. -/
theorem c9_comparison_id_symmetric (a b : String) :
    generateComparisonId a b = generateComparisonId b a := by
  unfold generateComparisonId
  rcases lt_trichotomy a b with h | h | h
  · rw [if_neg (not_lt.mpr h.le), if_neg (not_lt.mpr h.le), if_pos h, if_pos h]
  · subst h
    rfl
  · rw [if_pos h, if_pos h, if_neg (not_lt.mpr h.le), if_neg (not_lt.mpr h.le)]

/-- C9 witness: symmetry at concrete identifiers. -/
theorem c9_comparison_id_symmetric_witness :
    generateComparisonId "resp-1" "resp-2" = generateComparisonId "resp-2" "resp-1" :=
  c9_comparison_id_symmetric "resp-1" "resp-2"

/-- C10: for every pair of usable responses the compare payload carries the
unmodified raw `userId` of both responses next to the anonymized profile
identifiers. -/
theorem c10_compare_contains_raw_user_ids (r1 r2 : AssessmentResponse)
    (h1 : r1.reliability.isUsable = true) (h2 : r2.reliability.isUsable = true) :
    CompareResult.userIds (generateComparePayload r1 r2) = some (r1.userId, r2.userId) := by
  simp [generateComparePayload, h1, h2, CompareResult.userIds]

/-- C10 witness: the raw user identifiers in the payload of two concrete
usable responses. -/
theorem c10_compare_contains_raw_user_ids_witness :
    CompareResult.userIds (generateComparePayload goodResponse goodResponse2) =
      some (goodResponse.userId, goodResponse2.userId) :=
  c10_compare_contains_raw_user_ids goodResponse goodResponse2 rfl rfl
